import Mathlib

/-!
Shallow embedding of the MPU-9150 driver core (`src/mpu9150.cpp`) and proofs
about its configuration state machine, sample decoder and FIFO pipeline.

Register writes and reads go through an injected two-wire transport; the
transport is modelled as an oracle (`Bus`) giving the success flag and, for
reads, the returned bytes of the k-th bus operation issued by a call.
Floating-point values are modelled as exact rationals; machine `int16_t`
arithmetic is modelled by explicit reduction modulo 2^16.
-/

namespace Mpu9150

/-- Transport oracle: `ok k` tells whether the k-th register operation of a
call succeeds, `rd k` gives the bytes returned when that operation is a read. -/
structure Bus where
  ok : Nat → Bool
  rd : Nat → List Nat

/-- Modelled from the spec and the register names used by `mpu9150.cpp`:
the device registers the driver touches.  Their numeric addresses play no
role in the claims, only their identities. -/
inductive Reg where
  | PWR_MGMNT_1_
  | WHOAMI_
  | INT_PIN_CFG_
  | ACCEL_CONFIG_
  | GYRO_CONFIG_
  | SMPLRT_DIV_
  | ACCEL_CONFIG2_
  | CONFIG_
  | INT_STATUS_
  | FIFO_COUNT_H_
  | FIFO_R_W_
deriving DecidableEq

/-- Accelerometer full-scale range selector.  `ACCEL_RANGE_INVALID` models any
underlying value outside the four enumerators (a C++ enum admits such values);
it is what the `default:` branch of `ConfigAccelRange` rejects. -/
inductive AccelRange where
  | ACCEL_RANGE_2G
  | ACCEL_RANGE_4G
  | ACCEL_RANGE_8G
  | ACCEL_RANGE_16G
  | ACCEL_RANGE_INVALID
deriving DecidableEq

/-- Gyroscope full-scale range selector, with `GYRO_RANGE_INVALID` modelling
any out-of-enumeration underlying value. -/
inductive GyroRange where
  | GYRO_RANGE_250DPS
  | GYRO_RANGE_500DPS
  | GYRO_RANGE_1000DPS
  | GYRO_RANGE_2000DPS
  | GYRO_RANGE_INVALID
deriving DecidableEq

/-- Low-pass filter bandwidth selector, with `DLPF_INVALID` modelling any
out-of-enumeration underlying value. -/
inductive DlpfBandwidth where
  | DLPF_BANDWIDTH_184HZ
  | DLPF_BANDWIDTH_92HZ
  | DLPF_BANDWIDTH_41HZ
  | DLPF_BANDWIDTH_20HZ
  | DLPF_BANDWIDTH_10HZ
  | DLPF_BANDWIDTH_5HZ
  | DLPF_INVALID
deriving DecidableEq

/-- Modelled from the spec: magnetometer interconnect mode (pass-through vs.
the non-pass-through mode).  The source only compares against `MAG_PASSTHROUGH`. -/
inductive MagMode where
  | MAG_PASSTHROUGH
  | MAG_FUSED
deriving DecidableEq

/-- The value carried by a register write, as the source writes it: either a
named header constant or the current requested enum / byte. -/
inductive WVal where
  | vHReset
  | vClkselPll
  | vI2cBypassEn
  | vAccelRange (r : AccelRange)
  | vGyroRange (r : GyroRange)
  | vDlpf (d : DlpfBandwidth)
  | vSrd (n : Nat)
deriving DecidableEq

/-- A register operation issued on the bus. -/
inductive BusOp where
  | write (reg : Reg) (v : WVal)
  | read (reg : Reg) (count : Nat)
deriving DecidableEq

/-- Modelled from the spec: the gravitational constant `G_MPS2_` of the header
(9.80665 m/s² per g), as an exact rational. -/
def G_MPS2_ : Rat := 9.80665

/-- Modelled from the spec: the degrees-to-radians constant `DEG2RAD_` of the
header (pi / 180 at float-literal precision), as an exact rational. -/
def DEG2RAD_ : Rat := 3.14159265358979323846 / 180

/-- Modelled from the spec: the temperature divisor `TEMP_SCALE_` of the
header for this chip. -/
def TEMP_SCALE_ : Rat := 340

/-- Modelled from the spec: the data-ready bit `RAW_DATA_RDY_INT_` of the
status byte (bit 0). -/
def RAW_DATA_RDY_INT_ : Nat := 1

/-- Modelled from the spec: the FIFO-overflow bit `FIFO_OFLOW_INT_` of the
status byte (bit 4). -/
def FIFO_OFLOW_INT_ : Nat := 16

/-- Modelled from the spec: the fixed expected identity constant
`WHOAMI_MPU9150_` (0x68). -/
def WHOAMI_MPU9150_ : Nat := 104

/-- The driver's member state: requested/active configuration pairs, decoded
sample outputs and FIFO bookkeeping, mirroring the `Mpu9150` data members. -/
structure State where
  mag_mode_ : MagMode
  who_am_i_ : Nat
  requested_accel_range_ : AccelRange
  accel_range_ : AccelRange
  requested_accel_scale_ : Rat
  accel_scale_ : Rat
  requested_gyro_range_ : GyroRange
  gyro_range_ : GyroRange
  requested_gyro_scale_ : Rat
  gyro_scale_ : Rat
  requested_dlpf_ : DlpfBandwidth
  dlpf_bandwidth_ : DlpfBandwidth
  srd_ : Nat
  new_imu_data_ : Bool
  data_buf_ : List Nat
  accel_cnts_ : Int × Int × Int
  gyro_cnts_ : Int × Int × Int
  temp_cnts_ : Int
  accel_ : Rat × Rat × Rat
  gyro_ : Rat × Rat × Rat
  temp_ : Rat
  fifo_overflowed_ : Bool
  fifo_count_ : Int
  bytes_to_read_ : Int
deriving DecidableEq

/-- A sample driver state used to instantiate theorems at concrete inputs. -/
def initState : State where
  mag_mode_ := .MAG_PASSTHROUGH
  who_am_i_ := 0
  requested_accel_range_ := .ACCEL_RANGE_16G
  accel_range_ := .ACCEL_RANGE_16G
  requested_accel_scale_ := 1
  accel_scale_ := 1
  requested_gyro_range_ := .GYRO_RANGE_2000DPS
  gyro_range_ := .GYRO_RANGE_2000DPS
  requested_gyro_scale_ := 1
  gyro_scale_ := 1
  requested_dlpf_ := .DLPF_BANDWIDTH_184HZ
  dlpf_bandwidth_ := .DLPF_BANDWIDTH_184HZ
  srd_ := 0
  new_imu_data_ := false
  data_buf_ := []
  accel_cnts_ := (0, 0, 0)
  gyro_cnts_ := (0, 0, 0)
  temp_cnts_ := 0
  accel_ := (0, 0, 0)
  gyro_ := (0, 0, 0)
  temp_ := 0
  fifo_overflowed_ := false
  fifo_count_ := 0
  bytes_to_read_ := 0

/-- A transport whose operations all succeed and whose reads return nothing,
used to instantiate theorems at concrete inputs. -/
def busT : Bus := ⟨fun _ => true, fun _ => []⟩

/-- A transport whose operations all fail, used to instantiate theorems at
concrete inputs. -/
def busF : Bus := ⟨fun _ => false, fun _ => []⟩

/-- A transport whose operation 0 succeeds and whose later operations fail,
used to instantiate theorems at concrete inputs. -/
def busM : Bus := ⟨fun i => decide (i = 0), fun _ => []⟩

/-- Reduction of a machine integer into `int16_t`, two's complement. -/
def int16OfNat (u : Nat) : Int :=
  if u % 65536 < 32768 then ((u % 65536 : Nat) : Int)
  else ((u % 65536 : Nat) : Int) - 65536

/-- Big-endian pair decode `static_cast<int16_t>(hi) << 8 | lo` on byte
inputs. -/
def toInt16 (hi lo : Nat) : Int := int16OfNat ((hi % 256) * 256 + lo % 256)

/-- Common tail of `ConfigAccelRange`: write the requested range to
`ACCEL_CONFIG_`; only on success update the stored range and scale.  Returns
the success flag, the new state, the next bus-operation index and the trace
of issued register operations. -/
def ConfigAccelFinish (b : Bus) (k : Nat) (s1 : State) :
    Bool × State × Nat × List BusOp :=
  if b.ok k then
    (true,
     { s1 with accel_range_ := s1.requested_accel_range_,
               accel_scale_ := s1.requested_accel_scale_ },
     k + 1, [.write .ACCEL_CONFIG_ (.vAccelRange s1.requested_accel_range_)])
  else
    (false, s1, k + 1,
     [.write .ACCEL_CONFIG_ (.vAccelRange s1.requested_accel_range_)])

/-- `Mpu9150::ConfigAccelRange`: validate the range, set the requested range
and scale, then write the register and commit on success. -/
def ConfigAccelRange (b : Bus) (k : Nat) (range : AccelRange) (s : State) :
    Bool × State × Nat × List BusOp :=
  match range with
  | .ACCEL_RANGE_2G =>
      ConfigAccelFinish b k
        { s with requested_accel_range_ := .ACCEL_RANGE_2G,
                 requested_accel_scale_ := 2 / 32767.5 }
  | .ACCEL_RANGE_4G =>
      ConfigAccelFinish b k
        { s with requested_accel_range_ := .ACCEL_RANGE_4G,
                 requested_accel_scale_ := 4 / 32767.5 }
  | .ACCEL_RANGE_8G =>
      ConfigAccelFinish b k
        { s with requested_accel_range_ := .ACCEL_RANGE_8G,
                 requested_accel_scale_ := 8 / 32767.5 }
  | .ACCEL_RANGE_16G =>
      ConfigAccelFinish b k
        { s with requested_accel_range_ := .ACCEL_RANGE_16G,
                 requested_accel_scale_ := 16 / 32767.5 }
  | .ACCEL_RANGE_INVALID => (false, s, k, [])

/-- Common tail of `ConfigGyroRange`: write the requested range to
`GYRO_CONFIG_`; only on success update the stored range and scale. -/
def ConfigGyroFinish (b : Bus) (k : Nat) (s1 : State) :
    Bool × State × Nat × List BusOp :=
  if b.ok k then
    (true,
     { s1 with gyro_range_ := s1.requested_gyro_range_,
               gyro_scale_ := s1.requested_gyro_scale_ },
     k + 1, [.write .GYRO_CONFIG_ (.vGyroRange s1.requested_gyro_range_)])
  else
    (false, s1, k + 1,
     [.write .GYRO_CONFIG_ (.vGyroRange s1.requested_gyro_range_)])

/-- `Mpu9150::ConfigGyroRange`: validate the range, set the requested range
and scale, then write the register and commit on success. -/
def ConfigGyroRange (b : Bus) (k : Nat) (range : GyroRange) (s : State) :
    Bool × State × Nat × List BusOp :=
  match range with
  | .GYRO_RANGE_250DPS =>
      ConfigGyroFinish b k
        { s with requested_gyro_range_ := .GYRO_RANGE_250DPS,
                 requested_gyro_scale_ := 250 / 32767.5 }
  | .GYRO_RANGE_500DPS =>
      ConfigGyroFinish b k
        { s with requested_gyro_range_ := .GYRO_RANGE_500DPS,
                 requested_gyro_scale_ := 500 / 32767.5 }
  | .GYRO_RANGE_1000DPS =>
      ConfigGyroFinish b k
        { s with requested_gyro_range_ := .GYRO_RANGE_1000DPS,
                 requested_gyro_scale_ := 1000 / 32767.5 }
  | .GYRO_RANGE_2000DPS =>
      ConfigGyroFinish b k
        { s with requested_gyro_range_ := .GYRO_RANGE_2000DPS,
                 requested_gyro_scale_ := 2000 / 32767.5 }
  | .GYRO_RANGE_INVALID => (false, s, k, [])

/-- Common tail of `ConfigDlpfBandwidth`: write the requested selector to
`ACCEL_CONFIG2_` and then to `CONFIG_`; only when both writes succeed update
the stored bandwidth. -/
def ConfigDlpfFinish (b : Bus) (k : Nat) (s1 : State) :
    Bool × State × Nat × List BusOp :=
  if b.ok k then
    if b.ok (k + 1) then
      (true, { s1 with dlpf_bandwidth_ := s1.requested_dlpf_ }, k + 2,
       [.write .ACCEL_CONFIG2_ (.vDlpf s1.requested_dlpf_),
        .write .CONFIG_ (.vDlpf s1.requested_dlpf_)])
    else
      (false, s1, k + 2,
       [.write .ACCEL_CONFIG2_ (.vDlpf s1.requested_dlpf_),
        .write .CONFIG_ (.vDlpf s1.requested_dlpf_)])
  else
    (false, s1, k + 1,
     [.write .ACCEL_CONFIG2_ (.vDlpf s1.requested_dlpf_)])

/-- `Mpu9150::ConfigDlpfBandwidth`: validate the selector, set the requested
bandwidth, then write it to both registers and commit on success. -/
def ConfigDlpfBandwidth (b : Bus) (k : Nat) (dlpf : DlpfBandwidth)
    (s : State) : Bool × State × Nat × List BusOp :=
  match dlpf with
  | .DLPF_BANDWIDTH_184HZ =>
      ConfigDlpfFinish b k { s with requested_dlpf_ := .DLPF_BANDWIDTH_184HZ }
  | .DLPF_BANDWIDTH_92HZ =>
      ConfigDlpfFinish b k { s with requested_dlpf_ := .DLPF_BANDWIDTH_92HZ }
  | .DLPF_BANDWIDTH_41HZ =>
      ConfigDlpfFinish b k { s with requested_dlpf_ := .DLPF_BANDWIDTH_41HZ }
  | .DLPF_BANDWIDTH_20HZ =>
      ConfigDlpfFinish b k { s with requested_dlpf_ := .DLPF_BANDWIDTH_20HZ }
  | .DLPF_BANDWIDTH_10HZ =>
      ConfigDlpfFinish b k { s with requested_dlpf_ := .DLPF_BANDWIDTH_10HZ }
  | .DLPF_BANDWIDTH_5HZ =>
      ConfigDlpfFinish b k { s with requested_dlpf_ := .DLPF_BANDWIDTH_5HZ }
  | .DLPF_INVALID => (false, s, k, [])

/-- `Mpu9150::ConfigSrd`: write the sample-rate divider; only on success
update the stored divider. -/
def ConfigSrd (b : Bus) (k : Nat) (srd : Nat) (s : State) :
    Bool × State × Nat × List BusOp :=
  if b.ok k then
    (true, { s with srd_ := srd }, k + 1, [.write .SMPLRT_DIV_ (.vSrd srd)])
  else
    (false, s, k + 1, [.write .SMPLRT_DIV_ (.vSrd srd)])

/-- Tail of `Mpu9150::Begin` after the identity check and the optional
pass-through enable: re-select the clock source, then apply the default
accelerometer range, gyroscope range, filter bandwidth and sample-rate
divider, aborting at the first failing step.  `k` is the index of the next
bus operation, `t` the trace issued so far. -/
def BeginTail (b : Bus) (k : Nat) (s : State) (t : List BusOp) :
    Bool × State × List BusOp :=
  let t4 := t ++ [.write .PWR_MGMNT_1_ .vClkselPll]
  if b.ok k then
    let cA := ConfigAccelRange b (k + 1) .ACCEL_RANGE_16G s
    let tA := t4 ++ cA.2.2.2
    if cA.1 then
      let cG := ConfigGyroRange b cA.2.2.1 .GYRO_RANGE_2000DPS cA.2.1
      let tG := tA ++ cG.2.2.2
      if cG.1 then
        let cD := ConfigDlpfBandwidth b cG.2.2.1 .DLPF_BANDWIDTH_184HZ cG.2.1
        let tD := tG ++ cD.2.2.2
        if cD.1 then
          let cS := ConfigSrd b cD.2.2.1 0 cD.2.1
          let tS := tD ++ cS.2.2.2
          if cS.1 then (true, cS.2.1, tS) else (false, cS.2.1, tS)
        else (false, cD.2.1, tD)
      else (false, cG.2.1, tG)
    else (false, cA.2.1, tA)
  else (false, s, t4)

/-- `Mpu9150::Begin(mode)`: store the mode, reset the IMU (the reset write's
result is discarded by the source), wait, select the clock source, read and
check the identity byte, optionally enable pass-through, then run the default
configuration tail.  The transport's own `Begin` and the settle `delay(100)`
issue no register operation. -/
def Begin (b : Bus) (mode : MagMode) (s : State) :
    Bool × State × List BusOp :=
  let s0 := { s with mag_mode_ := mode }
  let t1 : List BusOp := [.write .PWR_MGMNT_1_ .vHReset,
                          .write .PWR_MGMNT_1_ .vClkselPll]
  if b.ok 1 then
    let t2 := t1 ++ [.read .WHOAMI_ 1]
    if b.ok 2 then
      let s2 := { s0 with who_am_i_ := (b.rd 2).getD 0 0 }
      if s2.who_am_i_ = WHOAMI_MPU9150_ then
        match mode with
        | .MAG_PASSTHROUGH =>
            let t3 := t2 ++ [.write .INT_PIN_CFG_ .vI2cBypassEn]
            if b.ok 3 then BeginTail b 4 s2 t3 else (false, s2, t3)
        | .MAG_FUSED => BeginTail b 3 s2 t2
      else (false, s2, t2)
    else (false, s0, t2)
  else (false, s0, t1)

/-- Pointwise update of a caller output array of rationals. -/
def updQ (f : Nat → Rat) (i : Nat) (v : Rat) : Nat → Rat :=
  fun j => if j = i then v else f j

/-- Pointwise update of a caller output array of 16-bit counts. -/
def updI (f : Nat → Int) (i : Nat) (v : Int) : Nat → Int :=
  fun j => if j = i then v else f j

/-- `Mpu9150::Read()`: read the 15-byte frame starting at the status
register (`readOk` is the transport's success flag and `frame` the returned
bytes), extract the data-ready bit, and when set unpack the big-endian
counts and convert them to scaled, axis-remapped outputs. -/
def Read (readOk : Bool) (frame : List Nat) (s : State) : Bool × State :=
  let s0 := { s with new_imu_data_ := false }
  if readOk then
    let s1 := { s0 with data_buf_ := frame }
    if Nat.land (frame.getD 0 0) RAW_DATA_RDY_INT_ ≠ 0 then
      let s2 := { s1 with new_imu_data_ := true }
      let a0 := toInt16 (frame.getD 1 0) (frame.getD 2 0)
      let a1 := toInt16 (frame.getD 3 0) (frame.getD 4 0)
      let a2 := toInt16 (frame.getD 5 0) (frame.getD 6 0)
      let t := toInt16 (frame.getD 7 0) (frame.getD 8 0)
      let g0 := toInt16 (frame.getD 9 0) (frame.getD 10 0)
      let g1 := toInt16 (frame.getD 11 0) (frame.getD 12 0)
      let g2 := toInt16 (frame.getD 13 0) (frame.getD 14 0)
      (true,
       { s2 with
         accel_cnts_ := (a0, a1, a2), temp_cnts_ := t,
         gyro_cnts_ := (g0, g1, g2),
         accel_ := ((a1 : Rat) * s.accel_scale_ * G_MPS2_,
                    (a0 : Rat) * s.accel_scale_ * G_MPS2_,
                    (a2 : Rat) * s.accel_scale_ * (-1) * G_MPS2_),
         temp_ := (t : Rat) / TEMP_SCALE_ + 35,
         gyro_ := ((g1 : Rat) * s.gyro_scale_ * DEG2RAD_,
                   (g0 : Rat) * s.gyro_scale_ * DEG2RAD_,
                   (g2 : Rat) * s.gyro_scale_ * (-1) * DEG2RAD_) })
    else (false, { s1 with new_imu_data_ := false })
  else (false, s0)

/-- `Mpu9150::Read(float *values)`: like `Read`, but with a different
temperature formula, and additionally writing the remapped sensor-unit
outputs into the caller array at indices 0..5, 9 and 7, in source order. -/
def ReadArr (readOk : Bool) (frame : List Nat) (s : State)
    (values : Nat → Rat) : Bool × State × (Nat → Rat) :=
  let s0 := { s with new_imu_data_ := false }
  if readOk then
    let s1 := { s0 with data_buf_ := frame }
    if Nat.land (frame.getD 0 0) RAW_DATA_RDY_INT_ ≠ 0 then
      let s2 := { s1 with new_imu_data_ := true }
      let a0 := toInt16 (frame.getD 1 0) (frame.getD 2 0)
      let a1 := toInt16 (frame.getD 3 0) (frame.getD 4 0)
      let a2 := toInt16 (frame.getD 5 0) (frame.getD 6 0)
      let t := toInt16 (frame.getD 7 0) (frame.getD 8 0)
      let g0 := toInt16 (frame.getD 9 0) (frame.getD 10 0)
      let g1 := toInt16 (frame.getD 11 0) (frame.getD 12 0)
      let g2 := toInt16 (frame.getD 13 0) (frame.getD 14 0)
      let temp := ((t : Rat) - 21) / TEMP_SCALE_ + 21
      let s3 :=
        { s2 with
          accel_cnts_ := (a0, a1, a2), temp_cnts_ := t,
          gyro_cnts_ := (g0, g1, g2),
          accel_ := ((a1 : Rat) * s.accel_scale_ * G_MPS2_,
                     (a0 : Rat) * s.accel_scale_ * G_MPS2_,
                     (a2 : Rat) * s.accel_scale_ * (-1) * G_MPS2_),
          temp_ := temp,
          gyro_ := ((g1 : Rat) * s.gyro_scale_ * DEG2RAD_,
                    (g0 : Rat) * s.gyro_scale_ * DEG2RAD_,
                    (g2 : Rat) * s.gyro_scale_ * (-1) * DEG2RAD_) }
      let v0 := updQ values 0 ((a1 : Rat) * s.accel_scale_)
      let v1 := updQ v0 1 ((a0 : Rat) * s.accel_scale_)
      let v2 := updQ v1 2 ((a2 : Rat) * s.accel_scale_ * (-1))
      let v9 := updQ v2 9 (((t : Rat) - 21) / TEMP_SCALE_ + 21)
      let v3 := updQ v9 3 ((g1 : Rat) * s.gyro_scale_)
      let v4 := updQ v3 4 ((g0 : Rat) * s.gyro_scale_)
      let v5 := updQ v4 5 ((g2 : Rat) * s.gyro_scale_ * (-1))
      let v7 := updQ v5 7 s3.temp_
      (true, s3, v7)
    else (false, { s1 with new_imu_data_ := false }, values)
  else (false, s0, values)

/-- `Mpu9150::Read_raw(int16_t *values)`: like `Read`, but returning the
signed 16-bit counts directly in transport order, without scale or remap. -/
def Read_raw (readOk : Bool) (frame : List Nat) (s : State)
    (values : Nat → Int) : Bool × State × (Nat → Int) :=
  let s0 := { s with new_imu_data_ := false }
  if readOk then
    let s1 := { s0 with data_buf_ := frame }
    if Nat.land (frame.getD 0 0) RAW_DATA_RDY_INT_ ≠ 0 then
      let s2 := { s1 with new_imu_data_ := true }
      let v0 := updI values 0 (toInt16 (frame.getD 1 0) (frame.getD 2 0))
      let v1 := updI v0 1 (toInt16 (frame.getD 3 0) (frame.getD 4 0))
      let v2 := updI v1 2 (toInt16 (frame.getD 5 0) (frame.getD 6 0))
      let v6 := updI v2 6 (toInt16 (frame.getD 7 0) (frame.getD 8 0))
      let v3 := updI v6 3 (toInt16 (frame.getD 9 0) (frame.getD 10 0))
      let v4 := updI v3 4 (toInt16 (frame.getD 11 0) (frame.getD 12 0))
      let v5 := updI v4 5 (toInt16 (frame.getD 13 0) (frame.getD 14 0))
      (true, s2, v5)
    else (false, { s1 with new_imu_data_ := false }, values)
  else (false, s0, values)

/-- `Mpu9150::ReadFifo(data, len)`: check the buffer pointer, read and latch
the overflow bit, read the 16-bit FIFO count, and when it is positive drain
`min(len, count)` bytes through the transport burst read.  The transport
results are the inputs `r1Ok`/`status`, `r2Ok`/`cntHi`/`cntLo` and
`burstOk`; `dataNull` models a null caller buffer. -/
def ReadFifo (dataNull : Bool) (len : Nat) (r1Ok : Bool) (status : Nat)
    (r2Ok : Bool) (cntHi cntLo : Nat) (burstOk : Bool) (s : State) :
    Int × State :=
  if dataNull then (-1, s)
  else if r1Ok then
    let s1 := { s with
                data_buf_ := [status],
                fifo_overflowed_ := decide (Nat.land status FIFO_OFLOW_INT_ ≠ 0) }
    if r2Ok then
      let s2 := { s1 with
                  data_buf_ := [cntHi, cntLo],
                  fifo_count_ := toInt16 cntHi cntLo }
      if 0 < s2.fifo_count_ then
        let btr : Int := if (len : Int) < s2.fifo_count_ then (len : Int)
                         else s2.fifo_count_
        let s3 := { s2 with bytes_to_read_ := btr }
        if burstOk then (btr, s3) else (-1, s3)
      else (0, s2)
    else (-1, s1)
  else (-1, s)

/-- Result of `ProcessFifoData`: return value, driver state and the six
caller-supplied parallel output arrays. -/
structure FifoOut where
  ret : Int
  st : State
  gx : Nat → Rat
  gy : Nat → Rat
  gz : Nat → Rat
  ax : Nat → Rat
  ay : Nat → Rat
  az : Nat → Rat

/-- The loop `for (i = 0; i < len; i = i + 12)` of
`Mpu9150::ProcessFifoData`: unpack six big-endian counts starting at byte
`i`, scale and remap them into the output arrays at record index `j`, and
advance by 12 bytes.  The final `j` is returned through `int16_t`. -/
def fifoLoop (data : Nat → Nat) (len : Nat) (i j : Nat) (s : State)
    (gx gy gz ax ay az : Nat → Rat) : FifoOut :=
  if h : i < len then
    let a0 := toInt16 (data (i + 0)) (data (i + 1))
    let a1 := toInt16 (data (i + 2)) (data (i + 3))
    let a2 := toInt16 (data (i + 4)) (data (i + 5))
    let g0 := toInt16 (data (i + 6)) (data (i + 7))
    let g1 := toInt16 (data (i + 8)) (data (i + 9))
    let g2 := toInt16 (data (i + 10)) (data (i + 11))
    let s1 := { s with accel_cnts_ := (a0, a1, a2),
                       gyro_cnts_ := (g0, g1, g2) }
    fifoLoop data len (i + 12) (j + 1) s1
      (updQ gx j ((g1 : Rat) * s.gyro_scale_ * DEG2RAD_))
      (updQ gy j ((g0 : Rat) * s.gyro_scale_ * DEG2RAD_))
      (updQ gz j ((g2 : Rat) * s.gyro_scale_ * (-1) * DEG2RAD_))
      (updQ ax j ((a1 : Rat) * s.accel_scale_ * G_MPS2_))
      (updQ ay j ((a0 : Rat) * s.accel_scale_ * G_MPS2_))
      (updQ az j ((a2 : Rat) * s.accel_scale_ * (-1) * G_MPS2_))
  else
    ⟨int16OfNat j, s, gx, gy, gz, ax, ay, az⟩
termination_by len - i
decreasing_by omega

/-- `Mpu9150::ProcessFifoData(data, len, gx, gy, gz, ax, ay, az)`: check all
seven pointers, then run the 12-byte record decode loop over the buffer.
`data` is a total byte map: indices at or beyond the drained byte count
model whatever memory lies past the caller's buffer. -/
def ProcessFifoData (dataNull gxNull gyNull gzNull axNull ayNull azNull : Bool)
    (data : Nat → Nat) (len : Nat) (s : State)
    (gx gy gz ax ay az : Nat → Rat) : FifoOut :=
  if dataNull || gxNull || gyNull || gzNull || axNull || ayNull || azNull then
    ⟨-1, s, gx, gy, gz, ax, ay, az⟩
  else fifoLoop data len 0 0 s gx gy gz ax ay az

/-- C5: for each of the four accel-range and four gyro-range enumerators, a
successful configuration sets the active scale factor to the full scale
divided by 32767.5, and an input outside the enumerated set returns an error
without issuing any hardware write, leaving the whole state (in particular
the active range and scale) unchanged. -/
theorem config_scale_factors (b : Bus) (k : Nat) (s : State)
    (hok : b.ok k = true) :
    ((ConfigAccelRange b k .ACCEL_RANGE_2G s).2.1.accel_scale_ = 2 / 32767.5
      ∧ (ConfigAccelRange b k .ACCEL_RANGE_2G s).1 = true)
    ∧ ((ConfigAccelRange b k .ACCEL_RANGE_4G s).2.1.accel_scale_ = 4 / 32767.5
      ∧ (ConfigAccelRange b k .ACCEL_RANGE_4G s).1 = true)
    ∧ ((ConfigAccelRange b k .ACCEL_RANGE_8G s).2.1.accel_scale_ = 8 / 32767.5
      ∧ (ConfigAccelRange b k .ACCEL_RANGE_8G s).1 = true)
    ∧ ((ConfigAccelRange b k .ACCEL_RANGE_16G s).2.1.accel_scale_ = 16 / 32767.5
      ∧ (ConfigAccelRange b k .ACCEL_RANGE_16G s).1 = true)
    ∧ ((ConfigGyroRange b k .GYRO_RANGE_250DPS s).2.1.gyro_scale_ = 250 / 32767.5
      ∧ (ConfigGyroRange b k .GYRO_RANGE_250DPS s).1 = true)
    ∧ ((ConfigGyroRange b k .GYRO_RANGE_500DPS s).2.1.gyro_scale_ = 500 / 32767.5
      ∧ (ConfigGyroRange b k .GYRO_RANGE_500DPS s).1 = true)
    ∧ ((ConfigGyroRange b k .GYRO_RANGE_1000DPS s).2.1.gyro_scale_ = 1000 / 32767.5
      ∧ (ConfigGyroRange b k .GYRO_RANGE_1000DPS s).1 = true)
    ∧ ((ConfigGyroRange b k .GYRO_RANGE_2000DPS s).2.1.gyro_scale_ = 2000 / 32767.5
      ∧ (ConfigGyroRange b k .GYRO_RANGE_2000DPS s).1 = true)
    ∧ ConfigAccelRange b k .ACCEL_RANGE_INVALID s = (false, s, k, [])
    ∧ ConfigGyroRange b k .GYRO_RANGE_INVALID s = (false, s, k, []) := by
  simp [ConfigAccelRange, ConfigAccelFinish, ConfigGyroRange,
        ConfigGyroFinish, hok]

/-- C5 witness: the scale-factor theorem instantiated on an all-succeeding
transport at operation index 0 and the sample state. -/
theorem config_scale_factors_w :
    busT.ok 0 = true
    ∧ (((ConfigAccelRange busT 0 .ACCEL_RANGE_2G initState).2.1.accel_scale_ = 2 / 32767.5
      ∧ (ConfigAccelRange busT 0 .ACCEL_RANGE_2G initState).1 = true)
    ∧ ((ConfigAccelRange busT 0 .ACCEL_RANGE_4G initState).2.1.accel_scale_ = 4 / 32767.5
      ∧ (ConfigAccelRange busT 0 .ACCEL_RANGE_4G initState).1 = true)
    ∧ ((ConfigAccelRange busT 0 .ACCEL_RANGE_8G initState).2.1.accel_scale_ = 8 / 32767.5
      ∧ (ConfigAccelRange busT 0 .ACCEL_RANGE_8G initState).1 = true)
    ∧ ((ConfigAccelRange busT 0 .ACCEL_RANGE_16G initState).2.1.accel_scale_ = 16 / 32767.5
      ∧ (ConfigAccelRange busT 0 .ACCEL_RANGE_16G initState).1 = true)
    ∧ ((ConfigGyroRange busT 0 .GYRO_RANGE_250DPS initState).2.1.gyro_scale_ = 250 / 32767.5
      ∧ (ConfigGyroRange busT 0 .GYRO_RANGE_250DPS initState).1 = true)
    ∧ ((ConfigGyroRange busT 0 .GYRO_RANGE_500DPS initState).2.1.gyro_scale_ = 500 / 32767.5
      ∧ (ConfigGyroRange busT 0 .GYRO_RANGE_500DPS initState).1 = true)
    ∧ ((ConfigGyroRange busT 0 .GYRO_RANGE_1000DPS initState).2.1.gyro_scale_ = 1000 / 32767.5
      ∧ (ConfigGyroRange busT 0 .GYRO_RANGE_1000DPS initState).1 = true)
    ∧ ((ConfigGyroRange busT 0 .GYRO_RANGE_2000DPS initState).2.1.gyro_scale_ = 2000 / 32767.5
      ∧ (ConfigGyroRange busT 0 .GYRO_RANGE_2000DPS initState).1 = true)
    ∧ ConfigAccelRange busT 0 .ACCEL_RANGE_INVALID initState = (false, initState, 0, [])
    ∧ ConfigGyroRange busT 0 .GYRO_RANGE_INVALID initState = (false, initState, 0, [])) :=
  ⟨rfl, config_scale_factors busT 0 initState rfl⟩

/-- C8: for every in-enumeration filter bandwidth, when both writes succeed
`ConfigDlpfBandwidth` issues exactly a write of the selector to the
secondary accel filter register followed by a write of the same selector to
the primary filter register, and succeeds; an input outside the six
enumerators returns an error with no hardware write and an unchanged
state. -/
theorem dlpf_dual_write (b : Bus) (k : Nat) (s : State) (d : DlpfBandwidth)
    (hd : d ≠ .DLPF_INVALID) (h1 : b.ok k = true) (h2 : b.ok (k + 1) = true) :
    (ConfigDlpfBandwidth b k d s).2.2.2 =
      [.write .ACCEL_CONFIG2_ (.vDlpf d), .write .CONFIG_ (.vDlpf d)]
    ∧ (ConfigDlpfBandwidth b k d s).1 = true
    ∧ ConfigDlpfBandwidth b k .DLPF_INVALID s = (false, s, k, []) := by
  cases d <;>
    simp_all [ConfigDlpfBandwidth, ConfigDlpfFinish]

/-- C8 witness: the dual-write theorem instantiated on an all-succeeding
transport, the 184 Hz selector and the sample state. -/
theorem dlpf_dual_write_w :
    (DlpfBandwidth.DLPF_BANDWIDTH_184HZ ≠ .DLPF_INVALID
      ∧ busT.ok 0 = true ∧ busT.ok 1 = true)
    ∧ ((ConfigDlpfBandwidth busT 0 .DLPF_BANDWIDTH_184HZ initState).2.2.2 =
        [.write .ACCEL_CONFIG2_ (.vDlpf .DLPF_BANDWIDTH_184HZ),
         .write .CONFIG_ (.vDlpf .DLPF_BANDWIDTH_184HZ)]
      ∧ (ConfigDlpfBandwidth busT 0 .DLPF_BANDWIDTH_184HZ initState).1 = true
      ∧ ConfigDlpfBandwidth busT 0 .DLPF_INVALID initState
          = (false, initState, 0, [])) :=
  ⟨⟨by decide, rfl, rfl⟩,
   dlpf_dual_write busT 0 initState .DLPF_BANDWIDTH_184HZ (by decide) rfl rfl⟩

/-- C4: for each configuration operation, the active configuration fields
are unchanged whenever the corresponding hardware write fails (`bF` fails at
`k` and `k + 1`, `bM` succeeds at `k` but fails at `k + 1`) or the input is
rejected; on a succeeding transport (`bS`) they change to the requested
values. -/
theorem config_active_on_success_only (bF bM bS : Bus) (k : Nat) (s : State)
    (r : AccelRange) (g : GyroRange) (d : DlpfBandwidth) (n : Nat)
    (hr : r ≠ .ACCEL_RANGE_INVALID) (hg : g ≠ .GYRO_RANGE_INVALID)
    (hd : d ≠ .DLPF_INVALID)
    (hf1 : bF.ok k = false) (hf2 : bF.ok (k + 1) = false)
    (hm1 : bM.ok k = true) (hm2 : bM.ok (k + 1) = false)
    (hs1 : bS.ok k = true) (hs2 : bS.ok (k + 1) = true) :
    ((ConfigAccelRange bF k r s).2.1.accel_range_ = s.accel_range_
      ∧ (ConfigAccelRange bF k r s).2.1.accel_scale_ = s.accel_scale_
      ∧ (ConfigAccelRange bF k r s).1 = false)
    ∧ ((ConfigGyroRange bF k g s).2.1.gyro_range_ = s.gyro_range_
      ∧ (ConfigGyroRange bF k g s).2.1.gyro_scale_ = s.gyro_scale_
      ∧ (ConfigGyroRange bF k g s).1 = false)
    ∧ ((ConfigDlpfBandwidth bF k d s).2.1.dlpf_bandwidth_ = s.dlpf_bandwidth_
      ∧ (ConfigDlpfBandwidth bF k d s).1 = false)
    ∧ ((ConfigDlpfBandwidth bM k d s).2.1.dlpf_bandwidth_ = s.dlpf_bandwidth_
      ∧ (ConfigDlpfBandwidth bM k d s).1 = false)
    ∧ ((ConfigSrd bF k n s).2.1.srd_ = s.srd_
      ∧ (ConfigSrd bF k n s).1 = false)
    ∧ (ConfigAccelRange bS k .ACCEL_RANGE_INVALID s).2.1 = s
    ∧ (ConfigGyroRange bS k .GYRO_RANGE_INVALID s).2.1 = s
    ∧ (ConfigDlpfBandwidth bS k .DLPF_INVALID s).2.1 = s
    ∧ ((ConfigAccelRange bS k r s).1 = true
      ∧ (ConfigAccelRange bS k r s).2.1.accel_range_ = r
      ∧ (ConfigAccelRange bS k r s).2.1.accel_scale_
          = (ConfigAccelRange bS k r s).2.1.requested_accel_scale_)
    ∧ ((ConfigGyroRange bS k g s).1 = true
      ∧ (ConfigGyroRange bS k g s).2.1.gyro_range_ = g
      ∧ (ConfigGyroRange bS k g s).2.1.gyro_scale_
          = (ConfigGyroRange bS k g s).2.1.requested_gyro_scale_)
    ∧ ((ConfigDlpfBandwidth bS k d s).1 = true
      ∧ (ConfigDlpfBandwidth bS k d s).2.1.dlpf_bandwidth_ = d)
    ∧ ((ConfigSrd bS k n s).1 = true
      ∧ (ConfigSrd bS k n s).2.1.srd_ = n) := by
  refine ⟨?_, ?_, ?_, ?_, ?_, ?_, ?_, ?_, ?_, ?_, ?_, ?_⟩
  · cases r <;> simp_all [ConfigAccelRange, ConfigAccelFinish]
  · cases g <;> simp_all [ConfigGyroRange, ConfigGyroFinish]
  · cases d <;> simp_all [ConfigDlpfBandwidth, ConfigDlpfFinish]
  · cases d <;> simp_all [ConfigDlpfBandwidth, ConfigDlpfFinish]
  · simp_all [ConfigSrd]
  · simp [ConfigAccelRange]
  · simp [ConfigGyroRange]
  · simp [ConfigDlpfBandwidth]
  · cases r <;> simp_all [ConfigAccelRange, ConfigAccelFinish]
  · cases g <;> simp_all [ConfigGyroRange, ConfigGyroFinish]
  · cases d <;> simp_all [ConfigDlpfBandwidth, ConfigDlpfFinish]
  · simp_all [ConfigSrd]

/-- C4 witness: the active-configuration theorem instantiated on concrete
failing, half-failing and succeeding transports at operation index 0, the
4G / 500 dps / 92 Hz selectors, divider 7 and the sample state. -/
theorem config_active_on_success_only_w :
    (busF.ok 0 = false ∧ busF.ok 1 = false ∧ busM.ok 0 = true
      ∧ busM.ok 1 = false ∧ busT.ok 0 = true ∧ busT.ok 1 = true)
    ∧ (((ConfigAccelRange busF 0 .ACCEL_RANGE_4G initState).2.1.accel_range_
          = initState.accel_range_
      ∧ (ConfigAccelRange busF 0 .ACCEL_RANGE_4G initState).2.1.accel_scale_
          = initState.accel_scale_
      ∧ (ConfigAccelRange busF 0 .ACCEL_RANGE_4G initState).1 = false)
    ∧ ((ConfigGyroRange busF 0 .GYRO_RANGE_500DPS initState).2.1.gyro_range_
          = initState.gyro_range_
      ∧ (ConfigGyroRange busF 0 .GYRO_RANGE_500DPS initState).2.1.gyro_scale_
          = initState.gyro_scale_
      ∧ (ConfigGyroRange busF 0 .GYRO_RANGE_500DPS initState).1 = false)
    ∧ ((ConfigDlpfBandwidth busF 0 .DLPF_BANDWIDTH_92HZ initState).2.1.dlpf_bandwidth_
          = initState.dlpf_bandwidth_
      ∧ (ConfigDlpfBandwidth busF 0 .DLPF_BANDWIDTH_92HZ initState).1 = false)
    ∧ ((ConfigDlpfBandwidth busM 0 .DLPF_BANDWIDTH_92HZ initState).2.1.dlpf_bandwidth_
          = initState.dlpf_bandwidth_
      ∧ (ConfigDlpfBandwidth busM 0 .DLPF_BANDWIDTH_92HZ initState).1 = false)
    ∧ ((ConfigSrd busF 0 7 initState).2.1.srd_ = initState.srd_
      ∧ (ConfigSrd busF 0 7 initState).1 = false)
    ∧ (ConfigAccelRange busT 0 .ACCEL_RANGE_INVALID initState).2.1 = initState
    ∧ (ConfigGyroRange busT 0 .GYRO_RANGE_INVALID initState).2.1 = initState
    ∧ (ConfigDlpfBandwidth busT 0 .DLPF_INVALID initState).2.1 = initState
    ∧ ((ConfigAccelRange busT 0 .ACCEL_RANGE_4G initState).1 = true
      ∧ (ConfigAccelRange busT 0 .ACCEL_RANGE_4G initState).2.1.accel_range_
          = .ACCEL_RANGE_4G
      ∧ (ConfigAccelRange busT 0 .ACCEL_RANGE_4G initState).2.1.accel_scale_
          = (ConfigAccelRange busT 0 .ACCEL_RANGE_4G initState).2.1.requested_accel_scale_)
    ∧ ((ConfigGyroRange busT 0 .GYRO_RANGE_500DPS initState).1 = true
      ∧ (ConfigGyroRange busT 0 .GYRO_RANGE_500DPS initState).2.1.gyro_range_
          = .GYRO_RANGE_500DPS
      ∧ (ConfigGyroRange busT 0 .GYRO_RANGE_500DPS initState).2.1.gyro_scale_
          = (ConfigGyroRange busT 0 .GYRO_RANGE_500DPS initState).2.1.requested_gyro_scale_)
    ∧ ((ConfigDlpfBandwidth busT 0 .DLPF_BANDWIDTH_92HZ initState).1 = true
      ∧ (ConfigDlpfBandwidth busT 0 .DLPF_BANDWIDTH_92HZ initState).2.1.dlpf_bandwidth_
          = .DLPF_BANDWIDTH_92HZ)
    ∧ ((ConfigSrd busT 0 7 initState).1 = true
      ∧ (ConfigSrd busT 0 7 initState).2.1.srd_ = 7)) :=
  ⟨⟨rfl, rfl, by decide, by decide, rfl, rfl⟩,
   config_active_on_success_only busF busM busT 0 initState
     .ACCEL_RANGE_4G .GYRO_RANGE_500DPS .DLPF_BANDWIDTH_92HZ 7
     (by decide) (by decide) (by decide) rfl rfl (by decide) (by decide)
     rfl rfl⟩

/-- C7: `ReadFifo` returns the negative sentinel on a null buffer or on any
issued transport read failing; with a positive FIFO count and all reads
succeeding it returns `min(len, count)` (so a count larger than the buffer
returns exactly the buffer length); with a zero count it returns zero; and
the result is negative exactly when the buffer is null or an issued read
fails. -/
theorem readFifo_drain (dn r1 r2 bu : Bool) (len : Nat) (st hi lo : Nat)
    (s : State) (hpos : 0 < toInt16 hi lo) :
    (ReadFifo true len r1 st r2 hi lo bu s).1 = -1
    ∧ (ReadFifo false len false st r2 hi lo bu s).1 = -1
    ∧ (ReadFifo false len true st false hi lo bu s).1 = -1
    ∧ (ReadFifo false len true st true hi lo false s).1 = -1
    ∧ (ReadFifo false len true st true hi lo true s).1
        = min (len : Int) (toInt16 hi lo)
    ∧ (ReadFifo false len true st true 0 0 bu s).1 = 0
    ∧ ((ReadFifo dn len r1 st r2 hi lo bu s).1 < 0
        ↔ (dn = true ∨ r1 = false ∨ r2 = false ∨ bu = false))
    ∧ ((ReadFifo dn len r1 st r2 0 0 bu s).1 < 0
        ↔ (dn = true ∨ r1 = false ∨ r2 = false)) := by
  refine ⟨?_, ?_, ?_, ?_, ?_, ?_, ?_, ?_⟩
  · simp [ReadFifo]
  · simp [ReadFifo]
  · simp [ReadFifo]
  · simp [ReadFifo, hpos]
  · by_cases h : (len : Int) < toInt16 hi lo
    · simp [ReadFifo, hpos, h, min_eq_left h.le]
    · simp [ReadFifo, hpos, h, min_eq_right (le_of_not_lt h)]
  · simp [ReadFifo, toInt16, int16OfNat]
  · cases dn <;> cases r1 <;> cases r2 <;> cases bu <;>
      simp [ReadFifo, hpos] <;> (try split) <;> omega
  · cases dn <;> cases r1 <;> cases r2 <;>
      simp [ReadFifo, toInt16, int16OfNat]

/-- C7 witness: the drain theorem instantiated with buffer length 5, FIFO
count bytes (1, 0) (count 256) and the sample state. -/
theorem readFifo_drain_w :
    (0 : Int) < toInt16 1 0
    ∧ ((ReadFifo true 5 true 0 true 1 0 true initState).1 = -1
    ∧ (ReadFifo false 5 false 0 true 1 0 true initState).1 = -1
    ∧ (ReadFifo false 5 true 0 false 1 0 true initState).1 = -1
    ∧ (ReadFifo false 5 true 0 true 1 0 false initState).1 = -1
    ∧ (ReadFifo false 5 true 0 true 1 0 true initState).1
        = min ((5 : Nat) : Int) (toInt16 1 0)
    ∧ (ReadFifo false 5 true 0 true 0 0 true initState).1 = 0
    ∧ ((ReadFifo true 5 true 0 true 1 0 true initState).1 < 0
        ↔ (true = true ∨ true = false ∨ true = false ∨ true = false))
    ∧ ((ReadFifo true 5 true 0 true 0 0 true initState).1 < 0
        ↔ (true = true ∨ true = false ∨ true = false))) :=
  ⟨by decide, readFifo_drain true true true true 5 0 1 0 initState (by decide)⟩

/-- A sample 15-byte frame with the data-ready bit set: status 1, accel
counts (1, 2, 3), temperature count 4, gyro counts (5, 6, 7). -/
def frame15 : List Nat := [1, 0, 1, 0, 2, 0, 3, 0, 4, 0, 5, 0, 6, 0, 7]

/-- A sample 15-byte frame with the data-ready bit clear. -/
def frame15nr : List Nat := [0, 0, 1, 0, 2, 0, 3, 0, 4, 0, 5, 0, 6, 0, 7]

/-- C3: on a 15-byte frame with the data-ready bit set, `Read` reports new
data and produces output accel X = raw Y count x active accel scale x
gravity, output Y from the raw X count, output Z the negated raw Z product,
and the same permutation for the gyroscope with the degrees-to-radians
constant.  The raw counts are the big-endian pairs of the frame: accel X at
bytes 1-2, Y at 3-4, Z at 5-6, gyro X at 9-10, Y at 11-12, Z at 13-14. -/
theorem read_decode_remap (frame : List Nat) (s : State)
    (hlen : frame.length = 15)
    (hrdy : Nat.land (frame.getD 0 0) RAW_DATA_RDY_INT_ ≠ 0) :
    (Read true frame s).1 = true
    ∧ (Read true frame s).2.accel_ =
        ((toInt16 (frame.getD 3 0) (frame.getD 4 0) : Rat)
            * s.accel_scale_ * G_MPS2_,
         (toInt16 (frame.getD 1 0) (frame.getD 2 0) : Rat)
            * s.accel_scale_ * G_MPS2_,
         -((toInt16 (frame.getD 5 0) (frame.getD 6 0) : Rat)
            * s.accel_scale_ * G_MPS2_))
    ∧ (Read true frame s).2.gyro_ =
        ((toInt16 (frame.getD 11 0) (frame.getD 12 0) : Rat)
            * s.gyro_scale_ * DEG2RAD_,
         (toInt16 (frame.getD 9 0) (frame.getD 10 0) : Rat)
            * s.gyro_scale_ * DEG2RAD_,
         -((toInt16 (frame.getD 13 0) (frame.getD 14 0) : Rat)
            * s.gyro_scale_ * DEG2RAD_)) := by
  refine ⟨?_, ?_, ?_⟩ <;> simp_all [Read, Prod.ext_iff]

/-- C3 witness: the decode theorem instantiated on the sample ready frame
and the sample state. -/
theorem read_decode_remap_w :
    (frame15.length = 15
      ∧ Nat.land (frame15.getD 0 0) RAW_DATA_RDY_INT_ ≠ 0)
    ∧ ((Read true frame15 initState).1 = true
    ∧ (Read true frame15 initState).2.accel_ =
        ((toInt16 (frame15.getD 3 0) (frame15.getD 4 0) : Rat)
            * initState.accel_scale_ * G_MPS2_,
         (toInt16 (frame15.getD 1 0) (frame15.getD 2 0) : Rat)
            * initState.accel_scale_ * G_MPS2_,
         -((toInt16 (frame15.getD 5 0) (frame15.getD 6 0) : Rat)
            * initState.accel_scale_ * G_MPS2_))
    ∧ (Read true frame15 initState).2.gyro_ =
        ((toInt16 (frame15.getD 11 0) (frame15.getD 12 0) : Rat)
            * initState.gyro_scale_ * DEG2RAD_,
         (toInt16 (frame15.getD 9 0) (frame15.getD 10 0) : Rat)
            * initState.gyro_scale_ * DEG2RAD_,
         -((toInt16 (frame15.getD 13 0) (frame15.getD 14 0) : Rat)
            * initState.gyro_scale_ * DEG2RAD_))) :=
  ⟨⟨by decide, by decide⟩,
   read_decode_remap frame15 initState (by decide) (by decide)⟩

/-- C6: on a frame with the data-ready bit clear, all three read variants
return the no-new-data result and leave the previously decoded acceleration,
angular-rate and temperature outputs, and the caller output arrays,
unchanged. -/
theorem read_not_ready (frame : List Nat) (s : State) (vq : Nat → Rat)
    (vi : Nat → Int)
    (hrdy : Nat.land (frame.getD 0 0) RAW_DATA_RDY_INT_ = 0) :
    (Read true frame s).1 = false
    ∧ (Read true frame s).2.accel_ = s.accel_
    ∧ (Read true frame s).2.gyro_ = s.gyro_
    ∧ (Read true frame s).2.temp_ = s.temp_
    ∧ (ReadArr true frame s vq).1 = false
    ∧ (ReadArr true frame s vq).2.1.accel_ = s.accel_
    ∧ (ReadArr true frame s vq).2.1.gyro_ = s.gyro_
    ∧ (ReadArr true frame s vq).2.1.temp_ = s.temp_
    ∧ (ReadArr true frame s vq).2.2 = vq
    ∧ (Read_raw true frame s vi).1 = false
    ∧ (Read_raw true frame s vi).2.2 = vi := by
  simp_all [Read, ReadArr, Read_raw]

/-- C6 witness: the no-new-data theorem instantiated on the sample not-ready
frame, the sample state and all-zero output arrays. -/
theorem read_not_ready_w :
    Nat.land (frame15nr.getD 0 0) RAW_DATA_RDY_INT_ = 0
    ∧ ((Read true frame15nr initState).1 = false
    ∧ (Read true frame15nr initState).2.accel_ = initState.accel_
    ∧ (Read true frame15nr initState).2.gyro_ = initState.gyro_
    ∧ (Read true frame15nr initState).2.temp_ = initState.temp_
    ∧ (ReadArr true frame15nr initState (fun _ => 0)).1 = false
    ∧ (ReadArr true frame15nr initState (fun _ => 0)).2.1.accel_
        = initState.accel_
    ∧ (ReadArr true frame15nr initState (fun _ => 0)).2.1.gyro_
        = initState.gyro_
    ∧ (ReadArr true frame15nr initState (fun _ => 0)).2.1.temp_
        = initState.temp_
    ∧ (ReadArr true frame15nr initState (fun _ => 0)).2.2 = (fun _ => 0)
    ∧ (Read_raw true frame15nr initState (fun _ => 0)).1 = false
    ∧ (Read_raw true frame15nr initState (fun _ => 0)).2.2 = (fun _ => 0)) :=
  ⟨by decide,
   read_not_ready frame15nr initState (fun _ => 0) (fun _ => 0) (by decide)⟩

/-- C9: on a ready frame, scaling the raw-counts accessor's outputs by the
active scales and the gravity or degrees-to-radians constant and applying
the fixed remap (X from raw Y, Y from raw X, Z from negated raw Z) yields
exactly the scaled accessor's acceleration and angular-rate outputs. -/
theorem raw_scaled_roundtrip (frame : List Nat) (s : State) (vi : Nat → Int)
    (hrdy : Nat.land (frame.getD 0 0) RAW_DATA_RDY_INT_ ≠ 0) :
    (Read_raw true frame s vi).1 = true
    ∧ (Read true frame s).1 = true
    ∧ (Read true frame s).2.accel_ =
        (((Read_raw true frame s vi).2.2 1 : Rat) * s.accel_scale_ * G_MPS2_,
         ((Read_raw true frame s vi).2.2 0 : Rat) * s.accel_scale_ * G_MPS2_,
         -(((Read_raw true frame s vi).2.2 2 : Rat) * s.accel_scale_ * G_MPS2_))
    ∧ (Read true frame s).2.gyro_ =
        (((Read_raw true frame s vi).2.2 4 : Rat) * s.gyro_scale_ * DEG2RAD_,
         ((Read_raw true frame s vi).2.2 3 : Rat) * s.gyro_scale_ * DEG2RAD_,
         -(((Read_raw true frame s vi).2.2 5 : Rat) * s.gyro_scale_ * DEG2RAD_)) := by
  refine ⟨?_, ?_, ?_, ?_⟩ <;> simp_all [Read, Read_raw, updI, Prod.ext_iff]

/-- C9 witness: the round-trip theorem instantiated on the sample ready
frame, the sample state and an all-zero raw output array. -/
theorem raw_scaled_roundtrip_w :
    Nat.land (frame15.getD 0 0) RAW_DATA_RDY_INT_ ≠ 0
    ∧ ((Read_raw true frame15 initState (fun _ => 0)).1 = true
    ∧ (Read true frame15 initState).1 = true
    ∧ (Read true frame15 initState).2.accel_ =
        (((Read_raw true frame15 initState (fun _ => 0)).2.2 1 : Rat)
            * initState.accel_scale_ * G_MPS2_,
         ((Read_raw true frame15 initState (fun _ => 0)).2.2 0 : Rat)
            * initState.accel_scale_ * G_MPS2_,
         -(((Read_raw true frame15 initState (fun _ => 0)).2.2 2 : Rat)
            * initState.accel_scale_ * G_MPS2_))
    ∧ (Read true frame15 initState).2.gyro_ =
        (((Read_raw true frame15 initState (fun _ => 0)).2.2 4 : Rat)
            * initState.gyro_scale_ * DEG2RAD_,
         ((Read_raw true frame15 initState (fun _ => 0)).2.2 3 : Rat)
            * initState.gyro_scale_ * DEG2RAD_,
         -(((Read_raw true frame15 initState (fun _ => 0)).2.2 5 : Rat)
            * initState.gyro_scale_ * DEG2RAD_))) :=
  ⟨by decide,
   raw_scaled_roundtrip frame15 initState (fun _ => 0) (by decide)⟩

/-- C10: on a successful array-variant read of a ready 15-byte frame, the
caller array receives the remapped sensor-unit accel at indices 0-2 and gyro
at indices 3-5 (no gravity or deg-to-rad factor), the temperature in Celsius
at index 7 and the same formula at index 9; every other index, in particular
6 and 8 and everything from 10 up, is left unchanged. -/
theorem readArr_effects (frame : List Nat) (s : State) (v : Nat → Rat)
    (hlen : frame.length = 15)
    (hrdy : Nat.land (frame.getD 0 0) RAW_DATA_RDY_INT_ ≠ 0) :
    (ReadArr true frame s v).1 = true
    ∧ (ReadArr true frame s v).2.2 0
        = (toInt16 (frame.getD 3 0) (frame.getD 4 0) : Rat) * s.accel_scale_
    ∧ (ReadArr true frame s v).2.2 1
        = (toInt16 (frame.getD 1 0) (frame.getD 2 0) : Rat) * s.accel_scale_
    ∧ (ReadArr true frame s v).2.2 2
        = -((toInt16 (frame.getD 5 0) (frame.getD 6 0) : Rat) * s.accel_scale_)
    ∧ (ReadArr true frame s v).2.2 3
        = (toInt16 (frame.getD 11 0) (frame.getD 12 0) : Rat) * s.gyro_scale_
    ∧ (ReadArr true frame s v).2.2 4
        = (toInt16 (frame.getD 9 0) (frame.getD 10 0) : Rat) * s.gyro_scale_
    ∧ (ReadArr true frame s v).2.2 5
        = -((toInt16 (frame.getD 13 0) (frame.getD 14 0) : Rat) * s.gyro_scale_)
    ∧ (ReadArr true frame s v).2.2 7
        = ((toInt16 (frame.getD 7 0) (frame.getD 8 0) : Rat) - 21)
            / TEMP_SCALE_ + 21
    ∧ (ReadArr true frame s v).2.2 9
        = ((toInt16 (frame.getD 7 0) (frame.getD 8 0) : Rat) - 21)
            / TEMP_SCALE_ + 21
    ∧ (ReadArr true frame s v).2.2 6 = v 6
    ∧ (ReadArr true frame s v).2.2 8 = v 8
    ∧ (∀ j : Nat, j ≠ 0 → j ≠ 1 → j ≠ 2 → j ≠ 3 → j ≠ 4 → j ≠ 5 → j ≠ 7 →
        j ≠ 9 → (ReadArr true frame s v).2.2 j = v j) := by
  refine ⟨?_, ?_, ?_, ?_, ?_, ?_, ?_, ?_, ?_, ?_, ?_, ?_⟩
  · simp_all [ReadArr]
  · simp_all [ReadArr, updQ]
  · simp_all [ReadArr, updQ]
  · simp_all [ReadArr, updQ]
  · simp_all [ReadArr, updQ]
  · simp_all [ReadArr, updQ]
  · simp_all [ReadArr, updQ]
  · simp_all [ReadArr, updQ]
  · simp_all [ReadArr, updQ]
  · simp_all [ReadArr, updQ]
  · simp_all [ReadArr, updQ]
  · intro j h0 h1 h2 h3 h4 h5 h7 h9
    simp_all [ReadArr, updQ]

/-- C10 witness: the array-effects theorem instantiated on the sample ready
frame, the sample state and an all-zero caller array. -/
theorem readArr_effects_w :
    (frame15.length = 15
      ∧ Nat.land (frame15.getD 0 0) RAW_DATA_RDY_INT_ ≠ 0)
    ∧ ((ReadArr true frame15 initState (fun _ => 0)).1 = true
    ∧ (ReadArr true frame15 initState (fun _ => 0)).2.2 0
        = (toInt16 (frame15.getD 3 0) (frame15.getD 4 0) : Rat)
            * initState.accel_scale_
    ∧ (ReadArr true frame15 initState (fun _ => 0)).2.2 1
        = (toInt16 (frame15.getD 1 0) (frame15.getD 2 0) : Rat)
            * initState.accel_scale_
    ∧ (ReadArr true frame15 initState (fun _ => 0)).2.2 2
        = -((toInt16 (frame15.getD 5 0) (frame15.getD 6 0) : Rat)
            * initState.accel_scale_)
    ∧ (ReadArr true frame15 initState (fun _ => 0)).2.2 3
        = (toInt16 (frame15.getD 11 0) (frame15.getD 12 0) : Rat)
            * initState.gyro_scale_
    ∧ (ReadArr true frame15 initState (fun _ => 0)).2.2 4
        = (toInt16 (frame15.getD 9 0) (frame15.getD 10 0) : Rat)
            * initState.gyro_scale_
    ∧ (ReadArr true frame15 initState (fun _ => 0)).2.2 5
        = -((toInt16 (frame15.getD 13 0) (frame15.getD 14 0) : Rat)
            * initState.gyro_scale_)
    ∧ (ReadArr true frame15 initState (fun _ => 0)).2.2 7
        = ((toInt16 (frame15.getD 7 0) (frame15.getD 8 0) : Rat) - 21)
            / TEMP_SCALE_ + 21
    ∧ (ReadArr true frame15 initState (fun _ => 0)).2.2 9
        = ((toInt16 (frame15.getD 7 0) (frame15.getD 8 0) : Rat) - 21)
            / TEMP_SCALE_ + 21
    ∧ (ReadArr true frame15 initState (fun _ => 0)).2.2 6 = (fun _ => (0 : Rat)) 6
    ∧ (ReadArr true frame15 initState (fun _ => 0)).2.2 8 = (fun _ => (0 : Rat)) 8
    ∧ (∀ j : Nat, j ≠ 0 → j ≠ 1 → j ≠ 2 → j ≠ 3 → j ≠ 4 → j ≠ 5 → j ≠ 7 →
        j ≠ 9 → (ReadArr true frame15 initState (fun _ => 0)).2.2 j
          = (fun _ => (0 : Rat)) j)) :=
  ⟨⟨by decide, by decide⟩,
   readArr_effects frame15 initState (fun _ => 0) (by decide) (by decide)⟩

/-- A 13-byte drained buffer, all zero; the byte map returns 1 at index 14,
which lies past the buffer and models whatever memory follows it. -/
def d13 : Nat → Nat := fun n => if n = 14 then 1 else 0

/-- C1 (refuting evaluation): on a 13-byte buffer the decode loop
`for (i = 0; i < len; i = i + 12)` runs a second iteration at `i = 12`,
so `ProcessFifoData` returns 2 instead of `floor(13 / 12) = 1`, and its
second accel-X output is computed from bytes 14-15, beyond the 13-byte
buffer (the in-buffer bytes of `d13` are all zero, yet the output at record
index 1 is nonzero). -/
theorem processFifo_len13_overrun :
    (ProcessFifoData false false false false false false false d13 13
        initState (fun _ => 0) (fun _ => 0) (fun _ => 0) (fun _ => 0)
        (fun _ => 0) (fun _ => 0)).ret = 2
    ∧ (13 : Nat) / 12 = 1
    ∧ (ProcessFifoData false false false false false false false d13 13
        initState (fun _ => 0) (fun _ => 0) (fun _ => 0) (fun _ => 0)
        (fun _ => 0) (fun _ => 0)).ax 1 ≠ 0 := by
  refine ⟨?_, by norm_num, ?_⟩
  · simp [ProcessFifoData, fifoLoop, int16OfNat]
  · simp [ProcessFifoData, fifoLoop, updQ, d13, toInt16, int16OfNat,
      initState, G_MPS2_]
    norm_num

/-- A transport that fails exactly on operation 0 (the hardware-reset write)
and answers the identity read with the expected byte. -/
def busNoReset : Bus := ⟨fun k => decide (k ≠ 0), fun _ => [104]⟩

/-- A transport whose operations all succeed and which answers the identity
read with the expected byte. -/
def busAll104 : Bus := ⟨fun _ => true, fun _ => [104]⟩

/-- C2 (counterexample): the hardware-reset write's result is discarded by
the source, so a transport failing exactly at that write still lets `Begin`
return success and issue all nine remaining register operations — refuting
the claim that every step's failure aborts the sequence. -/
theorem begin_reset_failure_ignored :
    busNoReset.ok 0 = false
    ∧ (Begin busNoReset .MAG_PASSTHROUGH initState).1 = true
    ∧ (Begin busNoReset .MAG_PASSTHROUGH initState).2.2.length = 10 := by
  refine ⟨by decide, ?_, ?_⟩ <;>
    simp [Begin, BeginTail, ConfigAccelRange, ConfigAccelFinish,
      ConfigGyroRange, ConfigGyroFinish, ConfigDlpfBandwidth,
      ConfigDlpfFinish, ConfigSrd, busNoReset, WHOAMI_MPU9150_]

/-- C2 (amended): `Begin` issues its register operations in the stated
order; every checked step — clock select, identity read and verification,
pass-through enable (in pass-through mode), clock re-select, accel range,
gyro range, the two bandwidth writes, sample-rate divider — aborts the
sequence immediately on failure, returning failure with no further register
operations; only the initial hardware-reset write (operation 0) is
unchecked.  One conjunct per first-failure point, in both interconnect
modes. -/
theorem begin_order_abort (b : Bus) (s : State) :
    ((b.ok 1 = true → b.ok 2 = true → b.ok 3 = true → b.ok 4 = true →
      b.ok 5 = true → b.ok 6 = true → b.ok 7 = true → b.ok 8 = true →
      b.ok 9 = true → (b.rd 2).getD 0 0 = WHOAMI_MPU9150_ →
      (Begin b .MAG_PASSTHROUGH s).1 = true
      ∧ (Begin b .MAG_PASSTHROUGH s).2.2 =
        [.write .PWR_MGMNT_1_ .vHReset, .write .PWR_MGMNT_1_ .vClkselPll,
         .read .WHOAMI_ 1, .write .INT_PIN_CFG_ .vI2cBypassEn,
         .write .PWR_MGMNT_1_ .vClkselPll,
         .write .ACCEL_CONFIG_ (.vAccelRange .ACCEL_RANGE_16G),
         .write .GYRO_CONFIG_ (.vGyroRange .GYRO_RANGE_2000DPS),
         .write .ACCEL_CONFIG2_ (.vDlpf .DLPF_BANDWIDTH_184HZ),
         .write .CONFIG_ (.vDlpf .DLPF_BANDWIDTH_184HZ),
         .write .SMPLRT_DIV_ (.vSrd 0)]))
    ∧ (b.ok 1 = false →
      (Begin b .MAG_PASSTHROUGH s).1 = false
      ∧ (Begin b .MAG_PASSTHROUGH s).2.2 =
        [.write .PWR_MGMNT_1_ .vHReset, .write .PWR_MGMNT_1_ .vClkselPll])
    ∧ (b.ok 1 = true → b.ok 2 = false →
      (Begin b .MAG_PASSTHROUGH s).1 = false
      ∧ (Begin b .MAG_PASSTHROUGH s).2.2 =
        [.write .PWR_MGMNT_1_ .vHReset, .write .PWR_MGMNT_1_ .vClkselPll,
         .read .WHOAMI_ 1])
    ∧ (b.ok 1 = true → b.ok 2 = true →
      (b.rd 2).getD 0 0 ≠ WHOAMI_MPU9150_ →
      (Begin b .MAG_PASSTHROUGH s).1 = false
      ∧ (Begin b .MAG_PASSTHROUGH s).2.2 =
        [.write .PWR_MGMNT_1_ .vHReset, .write .PWR_MGMNT_1_ .vClkselPll,
         .read .WHOAMI_ 1])
    ∧ (b.ok 1 = true → b.ok 2 = true → b.ok 3 = false →
      (b.rd 2).getD 0 0 = WHOAMI_MPU9150_ →
      (Begin b .MAG_PASSTHROUGH s).1 = false
      ∧ (Begin b .MAG_PASSTHROUGH s).2.2 =
        [.write .PWR_MGMNT_1_ .vHReset, .write .PWR_MGMNT_1_ .vClkselPll,
         .read .WHOAMI_ 1, .write .INT_PIN_CFG_ .vI2cBypassEn])
    ∧ (b.ok 1 = true → b.ok 2 = true → b.ok 3 = true → b.ok 4 = false →
      (b.rd 2).getD 0 0 = WHOAMI_MPU9150_ →
      (Begin b .MAG_PASSTHROUGH s).1 = false
      ∧ (Begin b .MAG_PASSTHROUGH s).2.2 =
        [.write .PWR_MGMNT_1_ .vHReset, .write .PWR_MGMNT_1_ .vClkselPll,
         .read .WHOAMI_ 1, .write .INT_PIN_CFG_ .vI2cBypassEn,
         .write .PWR_MGMNT_1_ .vClkselPll])
    ∧ (b.ok 1 = true → b.ok 2 = true → b.ok 3 = true → b.ok 4 = true →
      b.ok 5 = false → (b.rd 2).getD 0 0 = WHOAMI_MPU9150_ →
      (Begin b .MAG_PASSTHROUGH s).1 = false
      ∧ (Begin b .MAG_PASSTHROUGH s).2.2 =
        [.write .PWR_MGMNT_1_ .vHReset, .write .PWR_MGMNT_1_ .vClkselPll,
         .read .WHOAMI_ 1, .write .INT_PIN_CFG_ .vI2cBypassEn,
         .write .PWR_MGMNT_1_ .vClkselPll,
         .write .ACCEL_CONFIG_ (.vAccelRange .ACCEL_RANGE_16G)])
    ∧ (b.ok 1 = true → b.ok 2 = true → b.ok 3 = true → b.ok 4 = true →
      b.ok 5 = true → b.ok 6 = false →
      (b.rd 2).getD 0 0 = WHOAMI_MPU9150_ →
      (Begin b .MAG_PASSTHROUGH s).1 = false
      ∧ (Begin b .MAG_PASSTHROUGH s).2.2 =
        [.write .PWR_MGMNT_1_ .vHReset, .write .PWR_MGMNT_1_ .vClkselPll,
         .read .WHOAMI_ 1, .write .INT_PIN_CFG_ .vI2cBypassEn,
         .write .PWR_MGMNT_1_ .vClkselPll,
         .write .ACCEL_CONFIG_ (.vAccelRange .ACCEL_RANGE_16G),
         .write .GYRO_CONFIG_ (.vGyroRange .GYRO_RANGE_2000DPS)])
    ∧ (b.ok 1 = true → b.ok 2 = true → b.ok 3 = true → b.ok 4 = true →
      b.ok 5 = true → b.ok 6 = true → b.ok 7 = false →
      (b.rd 2).getD 0 0 = WHOAMI_MPU9150_ →
      (Begin b .MAG_PASSTHROUGH s).1 = false
      ∧ (Begin b .MAG_PASSTHROUGH s).2.2 =
        [.write .PWR_MGMNT_1_ .vHReset, .write .PWR_MGMNT_1_ .vClkselPll,
         .read .WHOAMI_ 1, .write .INT_PIN_CFG_ .vI2cBypassEn,
         .write .PWR_MGMNT_1_ .vClkselPll,
         .write .ACCEL_CONFIG_ (.vAccelRange .ACCEL_RANGE_16G),
         .write .GYRO_CONFIG_ (.vGyroRange .GYRO_RANGE_2000DPS),
         .write .ACCEL_CONFIG2_ (.vDlpf .DLPF_BANDWIDTH_184HZ)])
    ∧ (b.ok 1 = true → b.ok 2 = true → b.ok 3 = true → b.ok 4 = true →
      b.ok 5 = true → b.ok 6 = true → b.ok 7 = true → b.ok 8 = false →
      (b.rd 2).getD 0 0 = WHOAMI_MPU9150_ →
      (Begin b .MAG_PASSTHROUGH s).1 = false
      ∧ (Begin b .MAG_PASSTHROUGH s).2.2 =
        [.write .PWR_MGMNT_1_ .vHReset, .write .PWR_MGMNT_1_ .vClkselPll,
         .read .WHOAMI_ 1, .write .INT_PIN_CFG_ .vI2cBypassEn,
         .write .PWR_MGMNT_1_ .vClkselPll,
         .write .ACCEL_CONFIG_ (.vAccelRange .ACCEL_RANGE_16G),
         .write .GYRO_CONFIG_ (.vGyroRange .GYRO_RANGE_2000DPS),
         .write .ACCEL_CONFIG2_ (.vDlpf .DLPF_BANDWIDTH_184HZ),
         .write .CONFIG_ (.vDlpf .DLPF_BANDWIDTH_184HZ)])
    ∧ (b.ok 1 = true → b.ok 2 = true → b.ok 3 = true → b.ok 4 = true →
      b.ok 5 = true → b.ok 6 = true → b.ok 7 = true → b.ok 8 = true →
      b.ok 9 = false → (b.rd 2).getD 0 0 = WHOAMI_MPU9150_ →
      (Begin b .MAG_PASSTHROUGH s).1 = false
      ∧ (Begin b .MAG_PASSTHROUGH s).2.2 =
        [.write .PWR_MGMNT_1_ .vHReset, .write .PWR_MGMNT_1_ .vClkselPll,
         .read .WHOAMI_ 1, .write .INT_PIN_CFG_ .vI2cBypassEn,
         .write .PWR_MGMNT_1_ .vClkselPll,
         .write .ACCEL_CONFIG_ (.vAccelRange .ACCEL_RANGE_16G),
         .write .GYRO_CONFIG_ (.vGyroRange .GYRO_RANGE_2000DPS),
         .write .ACCEL_CONFIG2_ (.vDlpf .DLPF_BANDWIDTH_184HZ),
         .write .CONFIG_ (.vDlpf .DLPF_BANDWIDTH_184HZ),
         .write .SMPLRT_DIV_ (.vSrd 0)])
    ∧ (b.ok 1 = true → b.ok 2 = true → b.ok 3 = true → b.ok 4 = true →
      b.ok 5 = true → b.ok 6 = true → b.ok 7 = true → b.ok 8 = true →
      (b.rd 2).getD 0 0 = WHOAMI_MPU9150_ →
      (Begin b .MAG_FUSED s).1 = true
      ∧ (Begin b .MAG_FUSED s).2.2 =
        [.write .PWR_MGMNT_1_ .vHReset, .write .PWR_MGMNT_1_ .vClkselPll,
         .read .WHOAMI_ 1, .write .PWR_MGMNT_1_ .vClkselPll,
         .write .ACCEL_CONFIG_ (.vAccelRange .ACCEL_RANGE_16G),
         .write .GYRO_CONFIG_ (.vGyroRange .GYRO_RANGE_2000DPS),
         .write .ACCEL_CONFIG2_ (.vDlpf .DLPF_BANDWIDTH_184HZ),
         .write .CONFIG_ (.vDlpf .DLPF_BANDWIDTH_184HZ),
         .write .SMPLRT_DIV_ (.vSrd 0)])
    ∧ (b.ok 1 = false →
      (Begin b .MAG_FUSED s).1 = false
      ∧ (Begin b .MAG_FUSED s).2.2 =
        [.write .PWR_MGMNT_1_ .vHReset, .write .PWR_MGMNT_1_ .vClkselPll])
    ∧ (b.ok 1 = true → b.ok 2 = false →
      (Begin b .MAG_FUSED s).1 = false
      ∧ (Begin b .MAG_FUSED s).2.2 =
        [.write .PWR_MGMNT_1_ .vHReset, .write .PWR_MGMNT_1_ .vClkselPll,
         .read .WHOAMI_ 1])
    ∧ (b.ok 1 = true → b.ok 2 = true →
      (b.rd 2).getD 0 0 ≠ WHOAMI_MPU9150_ →
      (Begin b .MAG_FUSED s).1 = false
      ∧ (Begin b .MAG_FUSED s).2.2 =
        [.write .PWR_MGMNT_1_ .vHReset, .write .PWR_MGMNT_1_ .vClkselPll,
         .read .WHOAMI_ 1])
    ∧ (b.ok 1 = true → b.ok 2 = true → b.ok 3 = false →
      (b.rd 2).getD 0 0 = WHOAMI_MPU9150_ →
      (Begin b .MAG_FUSED s).1 = false
      ∧ (Begin b .MAG_FUSED s).2.2 =
        [.write .PWR_MGMNT_1_ .vHReset, .write .PWR_MGMNT_1_ .vClkselPll,
         .read .WHOAMI_ 1, .write .PWR_MGMNT_1_ .vClkselPll])
    ∧ (b.ok 1 = true → b.ok 2 = true → b.ok 3 = true → b.ok 4 = false →
      (b.rd 2).getD 0 0 = WHOAMI_MPU9150_ →
      (Begin b .MAG_FUSED s).1 = false
      ∧ (Begin b .MAG_FUSED s).2.2 =
        [.write .PWR_MGMNT_1_ .vHReset, .write .PWR_MGMNT_1_ .vClkselPll,
         .read .WHOAMI_ 1, .write .PWR_MGMNT_1_ .vClkselPll,
         .write .ACCEL_CONFIG_ (.vAccelRange .ACCEL_RANGE_16G)])
    ∧ (b.ok 1 = true → b.ok 2 = true → b.ok 3 = true → b.ok 4 = true →
      b.ok 5 = false → (b.rd 2).getD 0 0 = WHOAMI_MPU9150_ →
      (Begin b .MAG_FUSED s).1 = false
      ∧ (Begin b .MAG_FUSED s).2.2 =
        [.write .PWR_MGMNT_1_ .vHReset, .write .PWR_MGMNT_1_ .vClkselPll,
         .read .WHOAMI_ 1, .write .PWR_MGMNT_1_ .vClkselPll,
         .write .ACCEL_CONFIG_ (.vAccelRange .ACCEL_RANGE_16G),
         .write .GYRO_CONFIG_ (.vGyroRange .GYRO_RANGE_2000DPS)])
    ∧ (b.ok 1 = true → b.ok 2 = true → b.ok 3 = true → b.ok 4 = true →
      b.ok 5 = true → b.ok 6 = false →
      (b.rd 2).getD 0 0 = WHOAMI_MPU9150_ →
      (Begin b .MAG_FUSED s).1 = false
      ∧ (Begin b .MAG_FUSED s).2.2 =
        [.write .PWR_MGMNT_1_ .vHReset, .write .PWR_MGMNT_1_ .vClkselPll,
         .read .WHOAMI_ 1, .write .PWR_MGMNT_1_ .vClkselPll,
         .write .ACCEL_CONFIG_ (.vAccelRange .ACCEL_RANGE_16G),
         .write .GYRO_CONFIG_ (.vGyroRange .GYRO_RANGE_2000DPS),
         .write .ACCEL_CONFIG2_ (.vDlpf .DLPF_BANDWIDTH_184HZ)])
    ∧ (b.ok 1 = true → b.ok 2 = true → b.ok 3 = true → b.ok 4 = true →
      b.ok 5 = true → b.ok 6 = true → b.ok 7 = false →
      (b.rd 2).getD 0 0 = WHOAMI_MPU9150_ →
      (Begin b .MAG_FUSED s).1 = false
      ∧ (Begin b .MAG_FUSED s).2.2 =
        [.write .PWR_MGMNT_1_ .vHReset, .write .PWR_MGMNT_1_ .vClkselPll,
         .read .WHOAMI_ 1, .write .PWR_MGMNT_1_ .vClkselPll,
         .write .ACCEL_CONFIG_ (.vAccelRange .ACCEL_RANGE_16G),
         .write .GYRO_CONFIG_ (.vGyroRange .GYRO_RANGE_2000DPS),
         .write .ACCEL_CONFIG2_ (.vDlpf .DLPF_BANDWIDTH_184HZ),
         .write .CONFIG_ (.vDlpf .DLPF_BANDWIDTH_184HZ)])
    ∧ (b.ok 1 = true → b.ok 2 = true → b.ok 3 = true → b.ok 4 = true →
      b.ok 5 = true → b.ok 6 = true → b.ok 7 = true → b.ok 8 = false →
      (b.rd 2).getD 0 0 = WHOAMI_MPU9150_ →
      (Begin b .MAG_FUSED s).1 = false
      ∧ (Begin b .MAG_FUSED s).2.2 =
        [.write .PWR_MGMNT_1_ .vHReset, .write .PWR_MGMNT_1_ .vClkselPll,
         .read .WHOAMI_ 1, .write .PWR_MGMNT_1_ .vClkselPll,
         .write .ACCEL_CONFIG_ (.vAccelRange .ACCEL_RANGE_16G),
         .write .GYRO_CONFIG_ (.vGyroRange .GYRO_RANGE_2000DPS),
         .write .ACCEL_CONFIG2_ (.vDlpf .DLPF_BANDWIDTH_184HZ),
         .write .CONFIG_ (.vDlpf .DLPF_BANDWIDTH_184HZ),
         .write .SMPLRT_DIV_ (.vSrd 0)]) := by
  refine ⟨?_, ?_, ?_, ?_, ?_, ?_, ?_, ?_, ?_, ?_, ?_, ?_, ?_, ?_, ?_, ?_,
    ?_, ?_, ?_, ?_, ?_⟩ <;>
  · intros
    simp_all [Begin, BeginTail, ConfigAccelRange, ConfigAccelFinish,
      ConfigGyroRange, ConfigGyroFinish, ConfigDlpfBandwidth,
      ConfigDlpfFinish, ConfigSrd]

/-- C2 witness: the order theorem instantiated on an all-succeeding
transport that answers the identity read with the expected byte: `Begin`
succeeds and issues the ten operations in the stated order. -/
theorem begin_order_abort_w :
    (Begin busAll104 .MAG_PASSTHROUGH initState).1 = true
    ∧ (Begin busAll104 .MAG_PASSTHROUGH initState).2.2 =
      [.write .PWR_MGMNT_1_ .vHReset, .write .PWR_MGMNT_1_ .vClkselPll,
       .read .WHOAMI_ 1, .write .INT_PIN_CFG_ .vI2cBypassEn,
       .write .PWR_MGMNT_1_ .vClkselPll,
       .write .ACCEL_CONFIG_ (.vAccelRange .ACCEL_RANGE_16G),
       .write .GYRO_CONFIG_ (.vGyroRange .GYRO_RANGE_2000DPS),
       .write .ACCEL_CONFIG2_ (.vDlpf .DLPF_BANDWIDTH_184HZ),
       .write .CONFIG_ (.vDlpf .DLPF_BANDWIDTH_184HZ),
       .write .SMPLRT_DIV_ (.vSrd 0)] :=
  (begin_order_abort busAll104 initState).1 rfl rfl rfl rfl rfl rfl rfl rfl
    rfl rfl

end Mpu9150
